import Mathlib

/-!
Verification development for the citrascope-pi image-build scripts.

The definitions below are a shallow embedding of the Python sources:

* `scripts/config.py`        — the fixed mount-point constants;
* `scripts/mount_img.py`     — `ImageMounter` (attach via kpartx, mount, cleanup)
  and the `main` CLI flow;
* `scripts/resize_fs.py`     — `DeviceManager.cleanup`;
* `scripts/update_upgrade_chroot.py` / `scripts/install_citrascope.py`
  — the chroot `mount_context` bind-mount manager and `update_system`;
* `build_image.py`           — `run_step`, the `customize_image` step loop and
  `build_complete_image`.

External commands (kpartx, mount, umount, parted, resize2fs, ...) are opaque
subprocesses; their outcomes are supplied by oracle structures (`World`,
`BindWorld`, `ExpandWorld`).  `subprocess.run(..., check=True)` raising
`CalledProcessError` on a non-zero exit is modelled by `runCheck`; a Python
`try/except subprocess.CalledProcessError` around such a call becomes a `match`
on the `Except` value.  Host-visible effects (which mount points are mounted,
which device-mapper nodes are attached for the image) are threaded explicitly
as state, and the commands issued are recorded as event traces.
-/

namespace CitrascopePi

/-- From scripts/config.py: `BOOT_MOUNT = "/mnt/part1"`. -/
def BOOT_MOUNT : String := "/mnt/part1"

/-- From scripts/config.py: `ROOTFS_MOUNT = "/mnt/part2"`. -/
def ROOTFS_MOUNT : String := "/mnt/part2"

/-- `subprocess.run(..., check=True)`: raises `CalledProcessError` when the
command exits non-zero (`ok = false`). -/
def runCheck (ok : Bool) : Except String Unit :=
  if ok then .ok () else .error "CalledProcessError"

/-- Outcomes of the external commands invoked by scripts/mount_img.py and
scripts/resize_fs.py, for one session on one image.
`kpartxAdd = none` models `sudo kpartx -av` exiting non-zero (raising
`CalledProcessError`); `kpartxAdd = some devs` models success with `devs` the
device names parsed from the `add map <name>` output lines, in output order.
`mountOk dev mp` is whether `sudo mount <dev> <mp>` exits zero, `umountOk mp`
whether `sudo umount <mp>` exits zero, and `kpartxDelOk` whether
`sudo kpartx -d <image>` exits zero (in which case it removes every
device-mapper node it created for the image). -/
structure World where
  kpartxAdd : Option (List String)
  mountOk : String → String → Bool
  umountOk : String → Bool
  kpartxDelOk : Bool

/-- Host-visible state for one image session: the mount points currently
mounted, and the device-mapper nodes currently attached for this image. -/
structure SysState where
  mounted : List String
  attached : List String
deriving DecidableEq, Repr

/-- The empty host state: nothing mounted, nothing attached. -/
def SysState.clean : SysState := ⟨[], []⟩

/-- One issued external command, for ordering properties.  A `mount`/`umount`
event records that the command was attempted (whether or not it succeeded);
`kpartxDel` records a `kpartx -d` teardown attempt. -/
inductive Ev
  | mount (dev mp : String)
  | umount (mp : String)
  | kpartxDel
deriving DecidableEq, Repr

/-- scripts/mount_img.py, `ImageMounter.__init__`: the object's fields. -/
structure ImageMounter where
  image_path : String
  loop_devices : List String
  mount_points : List String
deriving DecidableEq, Repr

/-- `ImageMounter(image_path)`: `loop_devices = []`,
`mount_points = [BOOT_MOUNT, ROOTFS_MOUNT]`. -/
def ImageMounter.init (image_path : String) : ImageMounter :=
  ⟨image_path, [], [BOOT_MOUNT, ROOTFS_MOUNT]⟩

/-- `ImageMounter.setup_loop_devices`: runs `sudo kpartx -av` (check=True)
inside `try/except CalledProcessError`, appends every parsed `add map` name to
`self.loop_devices`, and returns `False` if the command raised or if fewer than
2 devices were collected, `True` otherwise.  On command success the parsed
nodes become attached host state. -/
def ImageMounter.setup_loop_devices (w : World) (m : ImageMounter) (s : SysState) :
    ImageMounter × SysState × Bool :=
  match w.kpartxAdd with
  | none => (m, s, false)
  | some devs =>
      let m' := { m with loop_devices := m.loop_devices ++ devs }
      let s' := { s with attached := s.attached ++ devs }
      if m'.loop_devices.length < 2 then (m', s', false) else (m', s', true)

/-- The mount loop of `ImageMounter.mount_partitions`: for each
`(loop_dev, mount_point)` pair, run `sudo mount /dev/mapper/<loop_dev> <mp>`
(check=True).  The whole loop sits in one `try`, so the first raising mount
aborts it; the `except` clauses return `False`.  Every attempted command is
recorded; a successful one adds the mount point to the host state. -/
def mountList (w : World) (s : SysState) :
    List (String × String) → SysState × List Ev × Bool
  | [] => (s, [], true)
  | (dev, mp) :: rest =>
      if w.mountOk dev mp then
        let r := mountList w { s with mounted := s.mounted ++ [mp] } rest
        (r.1, .mount dev mp :: r.2.1, r.2.2)
      else (s, [.mount dev mp], false)

/-- `ImageMounter.mount_partitions(readonly)`: mounts
`zip(self.loop_devices, self.mount_points)` in order, each device addressed as
`/dev/mapper/<name>`; returns `False` when a mount raised, `True` otherwise.
`readonly` only selects the `-r` flag of the command and has no further effect
in the model. -/
def ImageMounter.mount_partitions (w : World) (m : ImageMounter) (s : SysState)
    (_readonly : Bool) : SysState × List Ev × Bool :=
  mountList w s
    ((m.loop_devices.zip m.mount_points).map (fun p => ("/dev/mapper/" ++ p.1, p.2)))

/-- One iteration of the unmount loop of `ImageMounter.cleanup`:
`if os.path.ismount(mount_point): try: sudo umount (check=True)
except CalledProcessError: print(...)`. -/
def umountStep (w : World) (acc : SysState × List Ev) (mp : String) :
    SysState × List Ev :=
  if mp ∈ acc.1.mounted then
    match runCheck (w.umountOk mp) with
    | .ok _ => ({ acc.1 with mounted := acc.1.mounted.filter (· ≠ mp) },
                acc.2 ++ [.umount mp])
    | .error _ => (acc.1, acc.2 ++ [.umount mp])
  else acc

/-- `ImageMounter.cleanup`: for each mount point in `reversed(self.mount_points)`,
run `umountStep` (unmount if mounted, swallowing a failure); then run
`sudo kpartx -d` WITHOUT check — its return code is only inspected to choose a
log message, so a non-zero exit never raises, and on a zero exit the image's
device-mapper nodes are gone. -/
def ImageMounter.cleanup (w : World) (m : ImageMounter) (s : SysState) :
    SysState × List Ev :=
  let r := m.mount_points.reverse.foldl (umountStep w) (s, [])
  if w.kpartxDelOk then ({ r.1 with attached := [] }, r.2 ++ [.kpartxDel])
  else (r.1, r.2 ++ [.kpartxDel])

/-- `ImageMounter.__enter__`: calls `setup_loop_devices()` and
`mount_partitions(readonly=False)`, DISCARDING both boolean results, and
returns `self`.  Neither callee lets an exception escape, so `__enter__`
always returns normally. -/
def ImageMounter.enter (w : World) (m : ImageMounter) (s : SysState) :
    ImageMounter × SysState × List Ev :=
  let r₁ := m.setup_loop_devices w s
  let r₂ := r₁.1.mount_partitions w r₁.2.1 false
  (r₁.1, r₂.1, r₂.2.1)

/-- Result of running `with ImageMounter(path): <body>`. -/
structure WithResult where
  outcome : Except String Unit
  state : SysState
  trace : List Ev
deriving Repr

/-- The `with ImageMounter(image_path):` statement (as used by
`customize_image` in build_image.py): `__enter__` runs (it never raises), the
managed block runs with outcome `body` (the injected failure point — the model
lets it fail but not re-mount the subsystem's resources), and `__exit__` runs
`cleanup()` on every exit path and returns `False`, so the body's exception, if
any, propagates. -/
def withImageMounter (w : World) (path : String) (body : Except String Unit) :
    WithResult :=
  let r₁ := ImageMounter.enter w (ImageMounter.init path) SysState.clean
  let r₂ := ImageMounter.cleanup w r₁.1 r₁.2.1
  ⟨body, r₂.1, r₁.2.2 ++ r₂.2⟩

/-- scripts/resize_fs.py, `DeviceManager.cleanup`: `sudo kpartx -d`
(check=True) inside `try/except CalledProcessError`; a non-zero exit is
printed and swallowed, so the call always returns normally. -/
def DeviceManager.cleanup (w : World) (s : SysState) : SysState :=
  match runCheck w.kpartxDelOk with
  | .ok _ => { s with attached := [] }
  | .error _ => s

/-- Possible results of `main()` in scripts/mount_img.py for the model:
either `sys.exit` with a code, or falling off the end of the happy path
(process exit 0). -/
inductive MainResult
  | exited (code : Nat)
  | finished
deriving DecidableEq, Repr

/-- The non-cleanup flow of `main()` in scripts/mount_img.py (after argument
checks): `if not mounter.setup_loop_devices(): sys.exit(1)`; then
`if not mounter.mount_partitions(readonly_mode): mounter.cleanup(); sys.exit(1)`;
otherwise print and return (exit 0). -/
def mountImgMain (w : World) (path : String) (readonly_mode : Bool) :
    MainResult × SysState × List Ev :=
  let r₁ := (ImageMounter.init path).setup_loop_devices w SysState.clean
  if r₁.2.2 = false then (.exited 1, r₁.2.1, [])
  else
    let r₂ := r₁.1.mount_partitions w r₁.2.1 readonly_mode
    if r₂.2.2 = false then
      let r₃ := ImageMounter.cleanup w r₁.1 r₂.1
      (.exited 1, r₃.1, r₂.2.1 ++ r₃.2)
    else (.finished, r₂.1, r₂.2.1)

/-! ## Change-root bind mounts
(scripts/update_upgrade_chroot.py and scripts/install_citrascope.py both define
the identical `mount_context`.) -/

/-- One issued command of `mount_context`: a `mount <options> <dest>` bind, a
`mount --make-rslave <dest>`, or an `umount -R <path>` attempt. -/
inductive BindEv
  | mountCmd (options : List String) (dest : String)
  | rslave (dest : String)
  | umountR (dest : String)
deriving DecidableEq, Repr

/-- Outcomes of the external commands invoked by `mount_context`. -/
structure BindWorld where
  bindOk : String → Bool
  rslaveOk : String → Bool
  umountROk : String → Bool

/-- The `mount_points` list literal of `mount_context(rootfs_path)`:
`(name, os.path.join(rootfs_path, name), mount_args, make_rslave)`. -/
def chrootMountPoints (rootfs_path : String) :
    List (String × String × List String × Bool) :=
  [("proc", rootfs_path ++ "/proc", ["-t", "proc", "proc"], false),
   ("sys", rootfs_path ++ "/sys", ["--rbind", "/sys"], true),
   ("dev", rootfs_path ++ "/dev", ["--rbind", "/dev"], true),
   ("run", rootfs_path ++ "/run", ["--rbind", "/run"], true)]

/-- The mount loop of `mount_context`: for each entry, run
`mount <options> <dest>` (check=True), then, when `make_rslave`, run
`mount --make-rslave <dest>` (check=True), then append `dest` to
`mounted_paths`.  The loop sits in a bare `try:`, so the first raising command
aborts it (control jumps to `finally`); note a destination whose rslave step
raised is NOT in `mounted_paths`.  Returns (`mounted_paths`, issued commands,
whether the loop completed without raising). -/
def bindPhase (w : BindWorld) :
    List (String × String × List String × Bool) → List String × List BindEv × Bool
  | [] => ([], [], true)
  | (_, dest, options, make_rslave) :: rest =>
      if w.bindOk dest then
        if make_rslave then
          if w.rslaveOk dest then
            let r := bindPhase w rest
            (dest :: r.1, .mountCmd options dest :: .rslave dest :: r.2.1, r.2.2)
          else ([], [.mountCmd options dest, .rslave dest], false)
        else
          let r := bindPhase w rest
          (dest :: r.1, .mountCmd options dest :: r.2.1, r.2.2)
      else ([], [.mountCmd options dest], false)

/-- The `finally:` block of `mount_context`: for each path in
`reversed(mounted_paths)`, run `umount -R <path>` (check=True) inside
`try/except CalledProcessError` — a failure is printed (or passed) and the
loop continues with the next path. -/
def unbindPhase (w : BindWorld) (mounted_paths : List String) : List BindEv :=
  mounted_paths.reverse.foldl
    (fun tr p =>
      match runCheck (w.umountROk p) with
      | .ok _ => tr ++ [.umountR p]
      | .error _ => tr ++ [.umountR p])
    []

/-- `with mount_context(rootfs_path): <body>`: the bind loop runs; if it
completed, the body runs (outcome `body`); the `finally:` unbind loop runs on
every exit path; a bind-phase exception then propagates. -/
def mountContextRun (w : BindWorld) (rootfs_path : String)
    (body : Except String Unit) : List BindEv × Except String Unit :=
  let r := bindPhase w (chrootMountPoints rootfs_path)
  let tr := unbindPhase w r.1
  (r.2.1 ++ tr, if r.2.2 then body else .error "CalledProcessError")

/-! ## The step pipeline (build_image.py) -/

/-- One recorded entry of `BUILD_RESULTS` (the `step_result` dict; the
`elapsed` wall-clock field is real time and is not modelled). -/
structure StepResult where
  name : String
  success : Bool
deriving DecidableEq, Repr

/-- What a build-step function call can produce, as seen by `run_step`:
a `BuildResult(success, data)` instance, any other value (normalised by
`bool(result)` with `data = {}`), an exception caught by `run_step`'s
`except Exception` handler, or a raised `SystemExit` — which derives from
`BaseException`, NOT `Exception`, and is what a step calling `sys.exit(1)`
produces (the shipped step `update_upgrade_chroot.main`, "Update packages",
does exactly that on failure). -/
inductive PyValue
  | buildResult (success : Bool) (data : List (String × String))
  | pyBool (b : Bool)
  | raises
  | exits
deriving DecidableEq, Repr

/-- Whether the step outcome is a failure (falsy result, raised exception, or
a `SystemExit` from the step itself). -/
def stepFails : PyValue → Bool
  | .buildResult s _ => !s
  | .pyBool b => !b
  | .raises => true
  | .exits => true

/-- `run_step(name, func)` of build_image.py.  On a `BuildResult` return,
success is its `.success` and data its `.data`; on any other return, success
is `bool(result)` and data `{}`; a falsy success appends a failed entry and
calls `sys.exit(1)`; an exception hitting the `except Exception` handler
appends a failed entry and calls `sys.exit(1)`; otherwise a successful entry
is appended and `data` returned.  A `SystemExit` raised by the step itself
(`.exits`, e.g. a step calling `sys.exit(1)`) is NOT caught by
`except Exception`: it propagates out of `run_step` with NO entry appended.
`none` models a propagating `SystemExit`, whether run_step's own or the
step's. -/
def run_step (results : List StepResult) (name : String) (v : PyValue) :
    List StepResult × Option (List (String × String)) :=
  match v with
  | .raises => (results ++ [⟨name, false⟩], none)
  | .exits => (results, none)
  | .buildResult s d =>
      if s then (results ++ [⟨name, true⟩], some d)
      else (results ++ [⟨name, false⟩], none)
  | .pyBool b =>
      if b then (results ++ [⟨name, true⟩], some [])
      else (results ++ [⟨name, false⟩], none)

/-- Python `dict` lookup `d['version']`-style access on the modelled data. -/
def lookupData (d : List (String × String)) (k : String) : Option String :=
  (d.find? (fun p => p.1 = k)).map (fun p => p.2)

/-- The metadata capture of the `customize_image` loop body: after the
"Install Citrascope" step, `data['version']`, when present, is stored as
`metadata['citrascope_version']`. -/
def mdUp (metadata : List (String × String)) (name : String)
    (d : List (String × String)) : List (String × String) :=
  if name = "Install Citrascope" then
    match lookupData d "version" with
    | some ver => metadata ++ [("citrascope_version", ver)]
    | none => metadata
  else metadata

/-- The `for name, func in BUILD_STEPS:` loop of `customize_image`: runs
`run_step` on each step in order; a propagating `SystemExit` — whether
`run_step`'s own `sys.exit(1)` or one escaping an attempted step — unwinds
the loop (third component `false`). -/
def runSteps (results : List StepResult) (metadata : List (String × String)) :
    List (String × PyValue) → List StepResult × List (String × String) × Bool
  | [] => (results, metadata, true)
  | (name, v) :: rest =>
      match run_step results name v with
      | (rs, none) => (rs, metadata, false)
      | (rs, some d) => runSteps rs (mdUp metadata name d) rest

/-- `customize_image(image_path)`: the step loop run inside
`with ImageMounter(image_path):`, starting from the current (initially empty)
`BUILD_RESULTS` and an empty `metadata` dict. -/
def customize_image (steps : List (String × PyValue)) :
    List StepResult × List (String × String) × Bool :=
  runSteps [] [] steps

/-! ## Image expansion (build_image.py, build_complete_image) -/

/-- Outcomes of the commands of the expansion phase of
`build_complete_image`.  `truncateOk` is the `f.truncate(new_size)` file
growth, which sits BEFORE the `try:`; `partedOk` is
`parted ... resizepart 2 100%` (check=True); `kpartxAdd` is
`kpartx -av` (check=True, `none` = raised); `e2fsckOk` is `e2fsck -f -y`
(run WITHOUT check — its exit status is ignored); `resize2fsOk` is
`resize2fs` (check=True). -/
structure ExpandWorld where
  truncateOk : Bool
  partedOk : Bool
  kpartxAdd : Option (List String)
  e2fsckOk : Bool
  resize2fsOk : Bool

/-- The `try/except Exception` block of `build_complete_image` around the
partition-table and filesystem resize: returns the `success` flag of the
`Expand image` entry appended to `BUILD_RESULTS` (`true` on the success path,
`false` when the `except` branch ran).  When `kpartx -av` reports fewer than
2 devices, the resize block is skipped and the phase still counts as success. -/
def expandImage (w : ExpandWorld) : Bool :=
  match runCheck w.partedOk with
  | .error _ => false
  | .ok _ =>
      match w.kpartxAdd with
      | none => false
      | some devs =>
          if devs.length ≥ 2 then
            match runCheck w.resize2fsOk with
            | .error _ => false
            | .ok _ => true
          else true

/-- `build_complete_image` after the base-image copy: the `f.truncate` file
growth runs outside any `try`, so its failure propagates (the function aborts,
`main` catches and exits 1 — modelled as `none`, with no step ever run);
otherwise the expansion `try/except` appends its `Expand image` entry to
`BUILD_RESULTS` and `customize_image` runs the steps.  Returns the final
`BUILD_RESULTS` and whether the build completed (no `sys.exit(1)`). -/
def build_complete_image (w : ExpandWorld) (steps : List (String × PyValue)) :
    Option (List StepResult × Bool) :=
  if w.truncateOk then
    let r := runSteps [⟨"Expand image", expandImage w⟩] [] steps
    some (r.1, r.2.2)
  else none

/-! ## resolv.conf handling (scripts/update_upgrade_chroot.py, update_system) -/

/-- Contents of the two files `update_system` touches inside the mounted
root filesystem: `etc/resolv.conf` and `etc/resolv.conf.bak`
(`none` = the file does not exist). -/
structure ResolvState where
  resolv : Option String
  bak : Option String
deriving DecidableEq, Repr

/-- File operations issued by `update_system`, in order. -/
inductive ResolvEv
  | backup
  | overwrite
  | restore
deriving DecidableEq, Repr

/-- `update_system(rootfs_path)` restricted to its effect on the image's
resolv.conf files: if `etc/resolv.conf` exists, `cp` it to
`etc/resolv.conf.bak`; `cp` the host's `/etc/resolv.conf` (content `host`)
over `etc/resolv.conf`; then `try:` the chroot apt work (outcome `body`, the
injected failure point) `finally:` if the backup file exists, `mv` it back
over `etc/resolv.conf` (which also removes the backup file).  The body's
exception, if any, propagates after the `finally`. -/
def update_system_resolv (host : String) (s : ResolvState)
    (body : Except String Unit) : ResolvState × List ResolvEv × Except String Unit :=
  let s₁ := if s.resolv.isSome then { s with bak := s.resolv } else s
  let tr₁ := if s.resolv.isSome then [ResolvEv.backup] else []
  let s₂ := { s₁ with resolv := some host }
  let s₃ := if s₂.bak.isSome then (⟨s₂.bak, none⟩ : ResolvState) else s₂
  let tr₃ := if s₂.bak.isSome then [ResolvEv.restore] else []
  (s₃, tr₁ ++ [ResolvEv.overwrite] ++ tr₃, body)

/-! ## Supporting lemmas -/

lemma mountList_attached (w : World) :
    ∀ (l : List (String × String)) (s : SysState),
      ((mountList w s l).1).attached = s.attached := by
  intro l
  induction l with
  | nil => intro s; simp [mountList]
  | cons p rest ih =>
      intro s
      obtain ⟨dev, mp⟩ := p
      cases h : w.mountOk dev mp <;> simp [mountList, h, ih]

lemma mountList_mem (w : World) :
    ∀ (l : List (String × String)) (s : SysState) (x : String),
      x ∈ ((mountList w s l).1).mounted →
        x ∈ s.mounted ∨ x ∈ l.map Prod.snd := by
  intro l
  induction l with
  | nil => intro s x hx; simp [mountList] at hx; exact Or.inl hx
  | cons p rest ih =>
      intro s x hx
      obtain ⟨dev, mp⟩ := p
      cases h : w.mountOk dev mp with
      | false =>
          simp [mountList, h] at hx
          exact Or.inl hx
      | true =>
          simp only [mountList, h, if_pos rfl] at hx
          rcases ih _ x hx with hm | hm
          · rcases List.mem_append.1 hm with hm | hm
            · exact Or.inl hm
            · simp at hm
              exact Or.inr (by simp [hm])
          · exact Or.inr (by simp [hm])

lemma umountStep_fst (w : World) (mp : String) (hU : w.umountOk mp = true) :
    ∀ acc : SysState × List Ev,
      (umountStep w acc mp).1 =
        { acc.1 with mounted := acc.1.mounted.filter (· ≠ mp) } := by
  intro acc
  by_cases h : mp ∈ acc.1.mounted
  · simp [umountStep, h, runCheck, hU]
  · have hf : acc.1.mounted.filter (· ≠ mp) = acc.1.mounted := by
      refine List.filter_eq_self.2 ?_
      intro a ha
      simp only [ne_eq, decide_eq_true_eq]
      intro e
      exact h (e ▸ ha)
    unfold umountStep
    rw [if_neg h, hf]

lemma foldl_umountStep_clean (w : World) :
    ∀ l : List String,
      l.foldl (umountStep w) (SysState.clean, ([] : List Ev)) =
        (SysState.clean, []) := by
  intro l
  induction l with
  | nil => rfl
  | cons a l ih =>
      have h : umountStep w (SysState.clean, ([] : List Ev)) a =
          (SysState.clean, []) := by
        simp [umountStep, SysState.clean]
      rw [List.foldl_cons, h, ih]

lemma cleanup_clean (w : World) (m : ImageMounter) :
    ImageMounter.cleanup w m SysState.clean = (SysState.clean, [Ev.kpartxDel]) := by
  rw [ImageMounter.cleanup]
  rw [foldl_umountStep_clean w]
  cases hk : w.kpartxDelOk <;> simp [SysState.clean]

lemma cleanup_fst (w : World) (m : ImageMounter) (s : SysState)
    (hmp : m.mount_points = [BOOT_MOUNT, ROOTFS_MOUNT])
    (hU1 : w.umountOk BOOT_MOUNT = true) (hU2 : w.umountOk ROOTFS_MOUNT = true) :
    (ImageMounter.cleanup w m s).1 =
      { mounted := (s.mounted.filter (· ≠ ROOTFS_MOUNT)).filter (· ≠ BOOT_MOUNT),
        attached := if w.kpartxDelOk then [] else s.attached } := by
  rw [ImageMounter.cleanup, hmp]
  simp only [List.reverse_cons, List.reverse_nil, List.nil_append, List.cons_append,
    List.foldl_cons, List.foldl_nil]
  rw [umountStep_fst w BOOT_MOUNT hU1, umountStep_fst w ROOTFS_MOUNT hU2]
  cases hk : w.kpartxDelOk <;> simp

lemma cleanup_trace_mem (w : World) (m : ImageMounter) (s : SysState) :
    Ev.kpartxDel ∈ (ImageMounter.cleanup w m s).2 := by
  rw [ImageMounter.cleanup]
  cases hk : w.kpartxDelOk <;> simp

lemma setup_mount_points (w : World) (m : ImageMounter) (s : SysState) :
    ((ImageMounter.setup_loop_devices w m s).1).mount_points = m.mount_points := by
  unfold ImageMounter.setup_loop_devices
  cases w.kpartxAdd with
  | none => rfl
  | some devs =>
      dsimp only
      split <;> rfl

lemma setup_mounted (w : World) (m : ImageMounter) (s : SysState) :
    ((ImageMounter.setup_loop_devices w m s).2.1).mounted = s.mounted := by
  unfold ImageMounter.setup_loop_devices
  cases w.kpartxAdd with
  | none => rfl
  | some devs =>
      dsimp only
      split <;> rfl

lemma zip_snd_mem {α β : Type} {A : List α} {B : List β} {y : β}
    (hy : y ∈ (A.zip B).map Prod.snd) : y ∈ B := by
  rw [List.mem_map] at hy
  obtain ⟨p, hp, he⟩ := hy
  exact he ▸ (List.of_mem_zip hp).2

lemma mount_partitions_mounted (w : World) (m : ImageMounter) (s : SysState)
    (ro : Bool) (x : String)
    (hx : x ∈ ((ImageMounter.mount_partitions w m s ro).1).mounted) :
    x ∈ s.mounted ∨ x ∈ m.mount_points := by
  unfold ImageMounter.mount_partitions at hx
  rcases mountList_mem w _ _ x hx with h | h
  · exact Or.inl h
  · right
    rw [List.map_map] at h
    have he : (Prod.snd ∘ fun p : String × String => ("/dev/mapper/" ++ p.1, p.2))
        = Prod.snd := funext fun p => rfl
    rw [he] at h
    exact zip_snd_mem h

lemma enter_eq (w : World) (m : ImageMounter) (s : SysState) :
    ImageMounter.enter w m s =
      ((m.setup_loop_devices w s).1,
       ((m.setup_loop_devices w s).1.mount_partitions w
          (m.setup_loop_devices w s).2.1 false).1,
       ((m.setup_loop_devices w s).1.mount_partitions w
          (m.setup_loop_devices w s).2.1 false).2.1) := rfl

lemma enter_mounted (w : World) (path : String) (x : String)
    (hx : x ∈ ((ImageMounter.enter w (ImageMounter.init path) SysState.clean).2.1).mounted) :
    x = BOOT_MOUNT ∨ x = ROOTFS_MOUNT := by
  rw [enter_eq] at hx
  rcases mount_partitions_mounted w _ _ false x hx with h | h
  · rw [setup_mounted] at h
    simp [SysState.clean] at h
  · rw [setup_mount_points] at h
    simpa [ImageMounter.init] using h

lemma filter_two_nil (l : List String)
    (h : ∀ x ∈ l, x = BOOT_MOUNT ∨ x = ROOTFS_MOUNT) :
    (l.filter (· ≠ ROOTFS_MOUNT)).filter (· ≠ BOOT_MOUNT) = [] := by
  refine List.eq_nil_iff_forall_not_mem.2 ?_
  intro x hx
  rw [List.mem_filter] at hx
  obtain ⟨hx1, hxB⟩ := hx
  rw [List.mem_filter] at hx1
  obtain ⟨hxl, hxR⟩ := hx1
  rcases h x hxl with e | e
  · simp [e] at hxB
  · simp [e] at hxR

/-! ## Claims -/

/-- C1 (confirmed): for every acquisition of the mount subsystem
(`with ImageMounter(path):` as used by `customize_image`) and for any failure
injected at any point after attach succeeds — a mount-phase failure (any
`mountOk` oracle) or an exception raised by the managed block (`body`) — the
release path runs on every exit path: afterwards no mount point remains
mounted and no device-mapper node remains attached for the image (given that
the teardown commands themselves succeed), and the body's exception is not
suppressed.  The `kpartx -d` detach attempt is part of every exit trace. -/
theorem cleanup_on_failure (w : World) (path : String) (body : Except String Unit)
    (hU : ∀ mp, w.umountOk mp = true) (hD : w.kpartxDelOk = true) :
    (withImageMounter w path body).state = SysState.clean ∧
    (withImageMounter w path body).outcome = body ∧
    Ev.kpartxDel ∈ (withImageMounter w path body).trace := by
  have hstate : (withImageMounter w path body).state =
      (ImageMounter.cleanup w
        (ImageMounter.enter w (ImageMounter.init path) SysState.clean).1
        (ImageMounter.enter w (ImageMounter.init path) SysState.clean).2.1).1 := rfl
  have htrace : (withImageMounter w path body).trace =
      (ImageMounter.enter w (ImageMounter.init path) SysState.clean).2.2 ++
      (ImageMounter.cleanup w
        (ImageMounter.enter w (ImageMounter.init path) SysState.clean).1
        (ImageMounter.enter w (ImageMounter.init path) SysState.clean).2.1).2 := rfl
  refine ⟨?_, rfl, ?_⟩
  · have hmp : ((ImageMounter.enter w (ImageMounter.init path) SysState.clean).1).mount_points
        = [BOOT_MOUNT, ROOTFS_MOUNT] := by
      rw [enter_eq, setup_mount_points]
      rfl
    rw [hstate, cleanup_fst w _ _ hmp (hU _) (hU _), hD,
      filter_two_nil _ (fun x hx => enter_mounted w path x hx)]
    rfl
  · rw [htrace]
    exact List.mem_append.2 (Or.inr (cleanup_trace_mem w _ _))

/-- Witness for C1 at a concrete world: two partitions discovered, the root
mount fails (the injected failure), the body raises; afterwards the host state
is clean. -/
theorem cleanup_on_failure_witness :
    (∀ mp, (⟨some ["loop0p1", "loop0p2"],
             fun _ mp => mp = BOOT_MOUNT, fun _ => true, true⟩ : World).umountOk mp = true) ∧
    (withImageMounter
        (⟨some ["loop0p1", "loop0p2"],
          fun _ mp => mp = BOOT_MOUNT, fun _ => true, true⟩ : World)
        "base.img" (.error "step raised")).state = SysState.clean :=
  ⟨fun _ => rfl,
   (cleanup_on_failure
      (⟨some ["loop0p1", "loop0p2"],
        fun _ mp => mp = BOOT_MOUNT, fun _ => true, true⟩ : World)
      "base.img" (.error "step raised") (fun _ => rfl) rfl).1⟩

/-- C9 (confirmed): entering the `ImageMounter` context manager never raises
on a failed attach or a failed mount: for EVERY world (kpartx error, too few
partitions, failing mounts included) the `with`-statement's outcome is exactly
the managed block's own outcome, so the block executes; `setup_loop_devices`
reports a kpartx error only by returning `False`, and `mount_partitions`
reports a failing mount only by returning `False`. -/
theorem enter_never_raises :
    (∀ (w : World) (path : String) (body : Except String Unit),
        (withImageMounter w path body).outcome = body) ∧
    (∀ (w : World) (m : ImageMounter) (s : SysState),
        (ImageMounter.setup_loop_devices
            ⟨none, w.mountOk, w.umountOk, w.kpartxDelOk⟩ m s).2.2 = false) ∧
    (∀ (w : World) (p d : String) (ds mps : List String) (s : SysState) (ro : Bool),
        (ImageMounter.mount_partitions
            ⟨w.kpartxAdd, fun _ _ => false, w.umountOk, w.kpartxDelOk⟩
            ⟨p, d :: ds, BOOT_MOUNT :: mps⟩ s ro).2.2 = false) := by
  refine ⟨fun w path body => rfl, fun w m s => rfl, fun w p d ds mps s ro => ?_⟩
  simp [ImageMounter.mount_partitions, mountList]

/-- C3 (code bug): when the attach discovers only one partition,
`setup_loop_devices` signals this only by returning `False`; used as the
scoped resource (`__enter__`), that value is discarded, no error is raised,
and a mount IS attempted — the single discovered partition gets mounted at the
boot mount point and the managed block still runs.  This contradicts the
specified behavior (AttachError raised, no mount attempted). -/
theorem attach_short_no_error :
    ((ImageMounter.init "base.img").setup_loop_devices
        ⟨some ["loop0p1"], fun _ _ => true, fun _ => true, true⟩ SysState.clean).2.2
      = false ∧
    (ImageMounter.enter ⟨some ["loop0p1"], fun _ _ => true, fun _ => true, true⟩
        (ImageMounter.init "base.img") SysState.clean).2 =
      (⟨[BOOT_MOUNT], ["loop0p1"]⟩,
       [Ev.mount "/dev/mapper/loop0p1" BOOT_MOUNT]) ∧
    (withImageMounter ⟨some ["loop0p1"], fun _ _ => true, fun _ => true, true⟩
        "base.img" (.ok ())).outcome = .ok () := by
  exact ⟨rfl, rfl, rfl⟩

/-- C5 (confirmed): for every successful mount sequence the boot mount point
is mounted strictly before the root mount point (the issued-command trace is
exactly boot then root), and on teardown the root mount point is unmounted
strictly before the boot mount point (the cleanup trace is exactly root then
boot, then the detach attempt). -/
theorem mount_order_invariant :
    (∀ (w : World) (s : SysState) (p d0 d1 : String) (rest : List String) (ro : Bool),
        w.mountOk ("/dev/mapper/" ++ d0) BOOT_MOUNT = true →
        w.mountOk ("/dev/mapper/" ++ d1) ROOTFS_MOUNT = true →
        (ImageMounter.mount_partitions w
            ⟨p, d0 :: d1 :: rest, [BOOT_MOUNT, ROOTFS_MOUNT]⟩ s ro).2 =
          ([Ev.mount ("/dev/mapper/" ++ d0) BOOT_MOUNT,
            Ev.mount ("/dev/mapper/" ++ d1) ROOTFS_MOUNT], true)) ∧
    (∀ (w : World) (m : ImageMounter) (s : SysState),
        m.mount_points = [BOOT_MOUNT, ROOTFS_MOUNT] →
        BOOT_MOUNT ∈ s.mounted → ROOTFS_MOUNT ∈ s.mounted →
        w.umountOk ROOTFS_MOUNT = true → w.umountOk BOOT_MOUNT = true →
        (ImageMounter.cleanup w m s).2 =
          [Ev.umount ROOTFS_MOUNT, Ev.umount BOOT_MOUNT, Ev.kpartxDel]) := by
  constructor
  · intro w s p d0 d1 rest ro hm0 hm1
    simp [ImageMounter.mount_partitions, mountList, hm0, hm1]
  · intro w m s hmp hB hR hU2 hU1
    have hmem : BOOT_MOUNT ∈ s.mounted.filter (· ≠ ROOTFS_MOUNT) := by
      rw [List.mem_filter]
      exact ⟨hB, by decide⟩
    rw [ImageMounter.cleanup, hmp]
    simp only [List.reverse_cons, List.reverse_nil, List.nil_append, List.cons_append,
      List.foldl_cons, List.foldl_nil]
    have h1 : umountStep w (s, ([] : List Ev)) ROOTFS_MOUNT =
        ({ s with mounted := s.mounted.filter (· ≠ ROOTFS_MOUNT) },
         [Ev.umount ROOTFS_MOUNT]) := by
      simp [umountStep, hR, runCheck, hU2]
    have h2 : umountStep w ({ s with mounted := s.mounted.filter (· ≠ ROOTFS_MOUNT) },
        ([Ev.umount ROOTFS_MOUNT] : List Ev)) BOOT_MOUNT =
        ({ mounted := (s.mounted.filter (· ≠ ROOTFS_MOUNT)).filter (· ≠ BOOT_MOUNT),
           attached := s.attached },
         [Ev.umount ROOTFS_MOUNT, Ev.umount BOOT_MOUNT]) := by
      simp [umountStep, hmem, runCheck, hU1]
      exact ⟨hB, by decide⟩
    rw [h1, h2]
    cases hk : w.kpartxDelOk <;> simp

/-- Witness for C5 at a concrete world and state. -/
theorem mount_order_invariant_witness :
    (ImageMounter.mount_partitions
        (⟨some [], fun _ _ => true, fun _ => true, true⟩ : World)
        ⟨"base.img", ["loop0p1", "loop0p2"], [BOOT_MOUNT, ROOTFS_MOUNT]⟩
        SysState.clean false).2 =
      ([Ev.mount "/dev/mapper/loop0p1" BOOT_MOUNT,
        Ev.mount "/dev/mapper/loop0p2" ROOTFS_MOUNT], true) ∧
    (ImageMounter.cleanup
        (⟨some [], fun _ _ => true, fun _ => true, true⟩ : World)
        (ImageMounter.init "base.img")
        ⟨[BOOT_MOUNT, ROOTFS_MOUNT], ["loop0p1", "loop0p2"]⟩).2 =
      [Ev.umount ROOTFS_MOUNT, Ev.umount BOOT_MOUNT, Ev.kpartxDel] :=
  ⟨mount_order_invariant.1
      (⟨some [], fun _ _ => true, fun _ => true, true⟩ : World)
      SysState.clean "base.img" "loop0p1" "loop0p2" [] false rfl rfl,
   mount_order_invariant.2
      (⟨some [], fun _ _ => true, fun _ => true, true⟩ : World)
      (ImageMounter.init "base.img")
      ⟨[BOOT_MOUNT, ROOTFS_MOUNT], ["loop0p1", "loop0p2"]⟩
      rfl (by decide) (by decide) rfl rfl⟩

lemma setup_two (w : World) (m : ImageMounter) (s : SysState)
    (d0 d1 : String) (rest : List String)
    (hA : w.kpartxAdd = some (d0 :: d1 :: rest)) (hl : m.loop_devices = []) :
    ImageMounter.setup_loop_devices w m s =
      ({ m with loop_devices := d0 :: d1 :: rest },
       { s with attached := s.attached ++ (d0 :: d1 :: rest) }, true) := by
  unfold ImageMounter.setup_loop_devices
  rw [hA]
  dsimp only
  rw [hl]
  have hlen : ¬((([] : List String) ++ d0 :: d1 :: rest).length < 2) := by
    simp
  rw [if_neg hlen]
  simp

/-- C4 (confirmed): in the CLI flow of scripts/mount_img.py, when the boot
mount succeeds and the root mount fails, `main` runs `cleanup()` before
signaling failure via `sys.exit(1)`: at the point the failure is signaled the
boot mount point has been unmounted again and nothing remains mounted, and the
issued-command trace shows the unmount strictly before exit. -/
theorem second_mount_fail_unmounts_first (w : World) (path : String) (ro : Bool)
    (d0 d1 : String) (rest : List String)
    (hA : w.kpartxAdd = some (d0 :: d1 :: rest))
    (hm0 : w.mountOk ("/dev/mapper/" ++ d0) BOOT_MOUNT = true)
    (hm1 : w.mountOk ("/dev/mapper/" ++ d1) ROOTFS_MOUNT = false)
    (hU : w.umountOk BOOT_MOUNT = true) :
    (mountImgMain w path ro).1 = MainResult.exited 1 ∧
    ((mountImgMain w path ro).2.1).mounted = [] ∧
    (mountImgMain w path ro).2.2 =
      [Ev.mount ("/dev/mapper/" ++ d0) BOOT_MOUNT,
       Ev.mount ("/dev/mapper/" ++ d1) ROOTFS_MOUNT,
       Ev.umount BOOT_MOUNT, Ev.kpartxDel] := by
  have hsetup := setup_two w (ImageMounter.init path) SysState.clean d0 d1 rest hA rfl
  unfold mountImgMain
  rw [hsetup]
  simp only [Bool.true_eq_false, if_false, ite_false]
  have hmount : ImageMounter.mount_partitions w
      ({ ImageMounter.init path with loop_devices := d0 :: d1 :: rest })
      ({ SysState.clean with attached := SysState.clean.attached ++ (d0 :: d1 :: rest) }) ro =
      (⟨[BOOT_MOUNT], d0 :: d1 :: rest⟩,
       [Ev.mount ("/dev/mapper/" ++ d0) BOOT_MOUNT,
        Ev.mount ("/dev/mapper/" ++ d1) ROOTFS_MOUNT], false) := by
    simp [ImageMounter.mount_partitions, ImageMounter.init, mountList, hm0, hm1,
      SysState.clean]
  rw [hmount]
  have hclean : ImageMounter.cleanup w
      ({ ImageMounter.init path with loop_devices := d0 :: d1 :: rest })
      (⟨[BOOT_MOUNT], d0 :: d1 :: rest⟩ : SysState) =
      (⟨[], if w.kpartxDelOk then [] else d0 :: d1 :: rest⟩,
       [Ev.umount BOOT_MOUNT, Ev.kpartxDel]) := by
    rw [ImageMounter.cleanup]
    have hrev : ({ ImageMounter.init path with
        loop_devices := d0 :: d1 :: rest } : ImageMounter).mount_points.reverse
        = [ROOTFS_MOUNT, BOOT_MOUNT] := by
      simp [ImageMounter.init]
    rw [hrev]
    simp only [List.foldl_cons, List.foldl_nil]
    have h1 : umountStep w ((⟨[BOOT_MOUNT], d0 :: d1 :: rest⟩ : SysState),
        ([] : List Ev)) ROOTFS_MOUNT =
        ((⟨[BOOT_MOUNT], d0 :: d1 :: rest⟩ : SysState), []) := by
      have hnm : ROOTFS_MOUNT ∉ ([BOOT_MOUNT] : List String) := by decide
      unfold umountStep
      rw [if_neg hnm]
    have h2 : umountStep w ((⟨[BOOT_MOUNT], d0 :: d1 :: rest⟩ : SysState),
        ([] : List Ev)) BOOT_MOUNT =
        ((⟨[], d0 :: d1 :: rest⟩ : SysState), [Ev.umount BOOT_MOUNT]) := by
      have hm : BOOT_MOUNT ∈ ([BOOT_MOUNT] : List String) := by decide
      unfold umountStep
      rw [if_pos hm, hU]
      simp [runCheck]
    rw [h1, h2]
    cases hk : w.kpartxDelOk <;> simp
  rw [hclean]
  refine ⟨rfl, rfl, rfl⟩

/-- Witness for C4 at a concrete world: boot mount succeeds, root mount
fails, the cleanup unmount succeeds. -/
theorem second_mount_fail_unmounts_first_witness :
    ((⟨some ["loop0p1", "loop0p2"], fun _ mp => mp = BOOT_MOUNT,
        fun _ => true, true⟩ : World).kpartxAdd = some ("loop0p1" :: "loop0p2" :: [])) ∧
    (mountImgMain
        (⟨some ["loop0p1", "loop0p2"], fun _ mp => mp = BOOT_MOUNT,
          fun _ => true, true⟩ : World) "base.img" false).1 = MainResult.exited 1 ∧
    ((mountImgMain
        (⟨some ["loop0p1", "loop0p2"], fun _ mp => mp = BOOT_MOUNT,
          fun _ => true, true⟩ : World) "base.img" false).2.1).mounted = [] :=
  ⟨rfl,
   (second_mount_fail_unmounts_first
      (⟨some ["loop0p1", "loop0p2"], fun _ mp => mp = BOOT_MOUNT,
        fun _ => true, true⟩ : World) "base.img" false
      "loop0p1" "loop0p2" [] rfl (by decide) (by decide) rfl).1,
   (second_mount_fail_unmounts_first
      (⟨some ["loop0p1", "loop0p2"], fun _ mp => mp = BOOT_MOUNT,
        fun _ => true, true⟩ : World) "base.img" false
      "loop0p1" "loop0p2" [] rfl (by decide) (by decide) rfl).2.1⟩

lemma foldl_append_map {α β : Type} (f : α → β) :
    ∀ (l : List α) (acc : List β),
      l.foldl (fun tr p => tr ++ [f p]) acc = acc ++ l.map f := by
  intro l
  induction l with
  | nil => intro acc; simp
  | cons a l ih => intro acc; simp [ih]

lemma unbindPhase_eq (w : BindWorld) (paths : List String) :
    unbindPhase w paths = paths.reverse.map BindEv.umountR := by
  unfold unbindPhase
  have hstep : (fun (tr : List BindEv) p =>
      match runCheck (w.umountROk p) with
      | .ok _ => tr ++ [BindEv.umountR p]
      | .error _ => tr ++ [BindEv.umountR p]) =
      fun (tr : List BindEv) p => tr ++ [BindEv.umountR p] := by
    funext tr p
    cases h : runCheck (w.umountROk p) <;> rfl
  rw [hstep, foldl_append_map]
  simp

lemma bindPhase_all_ok (w : BindWorld) (rootfs : String)
    (hb : ∀ d, w.bindOk d = true) (hr : ∀ d, w.rslaveOk d = true) :
    bindPhase w (chrootMountPoints rootfs) =
      ([rootfs ++ "/proc", rootfs ++ "/sys", rootfs ++ "/dev", rootfs ++ "/run"],
       [BindEv.mountCmd ["-t", "proc", "proc"] (rootfs ++ "/proc"),
        BindEv.mountCmd ["--rbind", "/sys"] (rootfs ++ "/sys"),
        BindEv.rslave (rootfs ++ "/sys"),
        BindEv.mountCmd ["--rbind", "/dev"] (rootfs ++ "/dev"),
        BindEv.rslave (rootfs ++ "/dev"),
        BindEv.mountCmd ["--rbind", "/run"] (rootfs ++ "/run"),
        BindEv.rslave (rootfs ++ "/run")],
       true) := by
  simp [bindPhase, chrootMountPoints, hb, hr]

/-- C6 (confirmed): the change-root bind-mount acquisition binds `/proc`
(non-recursive, type proc), then `/sys`, `/dev`, `/run` (each an rbind
immediately marked rslave), in exactly that order, and on release attempts a
recursive unbind of the four targets in exact reverse order (first conjunct:
the full command trace of a successful run).  Release always attempts every
successfully bound target in reverse order — independently of which unbind
commands fail (second conjunct), and also after a partial bind failure (third
conjunct). -/
theorem chroot_bind_order (w : BindWorld) (rootfs : String)
    (body : Except String Unit)
    (hb : ∀ d, w.bindOk d = true) (hr : ∀ d, w.rslaveOk d = true) :
    mountContextRun w rootfs body =
      ([BindEv.mountCmd ["-t", "proc", "proc"] (rootfs ++ "/proc"),
        BindEv.mountCmd ["--rbind", "/sys"] (rootfs ++ "/sys"),
        BindEv.rslave (rootfs ++ "/sys"),
        BindEv.mountCmd ["--rbind", "/dev"] (rootfs ++ "/dev"),
        BindEv.rslave (rootfs ++ "/dev"),
        BindEv.mountCmd ["--rbind", "/run"] (rootfs ++ "/run"),
        BindEv.rslave (rootfs ++ "/run"),
        BindEv.umountR (rootfs ++ "/run"),
        BindEv.umountR (rootfs ++ "/dev"),
        BindEv.umountR (rootfs ++ "/sys"),
        BindEv.umountR (rootfs ++ "/proc")], body) ∧
    (∀ (w' : BindWorld) (paths : List String),
        unbindPhase w' paths = paths.reverse.map BindEv.umountR) ∧
    (∀ (w' : BindWorld) (body' : Except String Unit),
        (mountContextRun w' rootfs body').1 =
          (bindPhase w' (chrootMountPoints rootfs)).2.1 ++
          (bindPhase w' (chrootMountPoints rootfs)).1.reverse.map BindEv.umountR) := by
  refine ⟨?_, fun w' paths => unbindPhase_eq w' paths, fun w' body' => ?_⟩
  · simp only [mountContextRun, bindPhase_all_ok w rootfs hb hr, unbindPhase_eq]
    simp
  · simp only [mountContextRun, unbindPhase_eq]

/-- Witness for C6 at a concrete world where every command succeeds except
the unbind of dev (whose failure, per the second conjunct, still does not
stop the other unbind attempts). -/
theorem chroot_bind_order_witness :
    mountContextRun
        (⟨fun _ => true, fun _ => true, fun d => d ≠ ROOTFS_MOUNT ++ "/dev"⟩ : BindWorld)
        ROOTFS_MOUNT (.ok ()) =
      ([BindEv.mountCmd ["-t", "proc", "proc"] (ROOTFS_MOUNT ++ "/proc"),
        BindEv.mountCmd ["--rbind", "/sys"] (ROOTFS_MOUNT ++ "/sys"),
        BindEv.rslave (ROOTFS_MOUNT ++ "/sys"),
        BindEv.mountCmd ["--rbind", "/dev"] (ROOTFS_MOUNT ++ "/dev"),
        BindEv.rslave (ROOTFS_MOUNT ++ "/dev"),
        BindEv.mountCmd ["--rbind", "/run"] (ROOTFS_MOUNT ++ "/run"),
        BindEv.rslave (ROOTFS_MOUNT ++ "/run"),
        BindEv.umountR (ROOTFS_MOUNT ++ "/run"),
        BindEv.umountR (ROOTFS_MOUNT ++ "/dev"),
        BindEv.umountR (ROOTFS_MOUNT ++ "/sys"),
        BindEv.umountR (ROOTFS_MOUNT ++ "/proc")], .ok ()) :=
  (chroot_bind_order
      (⟨fun _ => true, fun _ => true, fun d => d ≠ ROOTFS_MOUNT ++ "/dev"⟩ : BindWorld)
      ROOTFS_MOUNT (.ok ()) (fun _ => rfl) (fun _ => rfl)).1

/-- C7 (confirmed): teardown is idempotent and never raises.  On an
already-released state, `ImageMounter.cleanup` is a no-op that issues no
unmount and returns normally (for every world, including ones where the
teardown commands would fail: a non-zero `kpartx -d` exit is only a soft
warning).  After one successful cleanup, a second cleanup in a row changes
nothing and succeeds.  `DeviceManager.cleanup` on a non-zero `kpartx -d` exit
(e.g. already detached) swallows the error and returns with the state
untouched.  An unbind pass over an empty bound list does nothing. -/
theorem cleanup_idempotent :
    (∀ (w : World) (m : ImageMounter),
        ImageMounter.cleanup w m SysState.clean = (SysState.clean, [Ev.kpartxDel])) ∧
    (∀ (w : World) (m : ImageMounter) (s : SysState),
        m.mount_points = [BOOT_MOUNT, ROOTFS_MOUNT] →
        w.umountOk BOOT_MOUNT = true → w.umountOk ROOTFS_MOUNT = true →
        w.kpartxDelOk = true →
        ImageMounter.cleanup w m (ImageMounter.cleanup w m s).1 =
          ((ImageMounter.cleanup w m s).1, [Ev.kpartxDel])) ∧
    (∀ (w : World) (s : SysState),
        w.kpartxDelOk = false → DeviceManager.cleanup w s = s) ∧
    (∀ w : BindWorld, unbindPhase w [] = []) := by
  refine ⟨fun w m => cleanup_clean w m, ?_, ?_, fun w => rfl⟩
  · intro w m s hmp hU1 hU2 hD
    have hA : (ImageMounter.cleanup w m s).1 =
        ({ mounted := (s.mounted.filter (· ≠ ROOTFS_MOUNT)).filter (· ≠ BOOT_MOUNT),
           attached := [] } : SysState) := by
      rw [cleanup_fst w m s hmp hU1 hU2]
      simp [hD]
    rw [hA]
    have hR : ROOTFS_MOUNT ∉
        ((s.mounted.filter (· ≠ ROOTFS_MOUNT)).filter (· ≠ BOOT_MOUNT)) := by
      simp [List.mem_filter]
    have hB : BOOT_MOUNT ∉
        ((s.mounted.filter (· ≠ ROOTFS_MOUNT)).filter (· ≠ BOOT_MOUNT)) := by
      simp [List.mem_filter]
    unfold ImageMounter.cleanup
    rw [hmp]
    simp only [List.reverse_cons, List.reverse_nil, List.nil_append, List.cons_append,
      List.foldl_cons, List.foldl_nil]
    have h1 : umountStep w
        (({ mounted := (s.mounted.filter (· ≠ ROOTFS_MOUNT)).filter (· ≠ BOOT_MOUNT),
            attached := [] } : SysState), ([] : List Ev)) ROOTFS_MOUNT =
        (({ mounted := (s.mounted.filter (· ≠ ROOTFS_MOUNT)).filter (· ≠ BOOT_MOUNT),
            attached := [] } : SysState), []) := by
      unfold umountStep
      rw [if_neg hR]
    have h2 : umountStep w
        (({ mounted := (s.mounted.filter (· ≠ ROOTFS_MOUNT)).filter (· ≠ BOOT_MOUNT),
            attached := [] } : SysState), ([] : List Ev)) BOOT_MOUNT =
        (({ mounted := (s.mounted.filter (· ≠ ROOTFS_MOUNT)).filter (· ≠ BOOT_MOUNT),
            attached := [] } : SysState), []) := by
      unfold umountStep
      rw [if_neg hB]
    rw [h1, h2]
    simp [hD]
  · intro w s h
    unfold DeviceManager.cleanup
    rw [h]
    rfl

/-- Witness for C7 at a concrete world and a state with both mount points
mounted and two nodes attached: the second cleanup in a row is a no-op. -/
theorem cleanup_idempotent_witness :
    ImageMounter.cleanup (⟨some [], fun _ _ => true, fun _ => true, true⟩ : World)
        (ImageMounter.init "base.img")
        (ImageMounter.cleanup (⟨some [], fun _ _ => true, fun _ => true, true⟩ : World)
          (ImageMounter.init "base.img")
          ⟨[BOOT_MOUNT, ROOTFS_MOUNT], ["loop0p1", "loop0p2"]⟩).1 =
      ((ImageMounter.cleanup (⟨some [], fun _ _ => true, fun _ => true, true⟩ : World)
          (ImageMounter.init "base.img")
          ⟨[BOOT_MOUNT, ROOTFS_MOUNT], ["loop0p1", "loop0p2"]⟩).1, [Ev.kpartxDel]) :=
  cleanup_idempotent.2.1 (⟨some [], fun _ _ => true, fun _ => true, true⟩ : World)
    (ImageMounter.init "base.img")
    ⟨[BOOT_MOUNT, ROOTFS_MOUNT], ["loop0p1", "loop0p2"]⟩ rfl rfl rfl rfl

/-- C10 (confirmed): the package-update step overwrites the mounted image's
resolv.conf with the host's copy only after backing up the existing original
(the command trace is backup, then overwrite, then restore), and on every
exit path — the chroot body succeeding or raising — the `finally:` restores
the backup, so the run leaves the image's original resolv.conf content in
place whenever one existed, removes the backup file, and propagates the
body's own outcome. -/
theorem resolv_conf_restored (host c : String) (bak0 : Option String)
    (body : Except String Unit) :
    (update_system_resolv host ⟨some c, bak0⟩ body).1 = ⟨some c, none⟩ ∧
    (update_system_resolv host ⟨some c, bak0⟩ body).2.1 =
      [ResolvEv.backup, ResolvEv.overwrite, ResolvEv.restore] ∧
    (update_system_resolv host ⟨some c, bak0⟩ body).2.2 = body := by
  refine ⟨?_, ?_, rfl⟩ <;> simp [update_system_resolv]

/-- The continuation value `run_step` hands back (the `data` returned on
success, or `none` for the propagating-SystemExit paths), split off for
proofs. -/
def stepOut : PyValue → Option (List (String × String))
  | .buildResult s d => if s then some d else none
  | .pyBool b => if b then some [] else none
  | .raises => none
  | .exits => none

lemma run_step_eq (results : List StepResult) (n : String) (v : PyValue)
    (hne : v ≠ PyValue.exits) :
    run_step results n v = (results ++ [⟨n, !stepFails v⟩], stepOut v) := by
  cases v with
  | buildResult s d => cases s <;> simp [run_step, stepFails, stepOut]
  | pyBool b => cases b <;> simp [run_step, stepFails, stepOut]
  | raises => simp [run_step, stepFails, stepOut]
  | exits => exact absurd rfl hne

lemma stepFails_stepOut (v : PyValue) (hs : stepFails v = false) :
    ∃ d, stepOut v = some d := by
  cases v with
  | buildResult s d => cases s <;> simp_all [stepFails, stepOut]
  | pyBool b => cases b <;> simp_all [stepFails, stepOut]
  | raises => simp [stepFails] at hs
  | exits => simp [stepFails] at hs

lemma stepFails_ne_exits (v : PyValue) (hs : stepFails v = false) :
    v ≠ PyValue.exits := by
  intro h
  subst h
  simp [stepFails] at hs

lemma runSteps_cons_fail (results : List StepResult) (md : List (String × String))
    (n : String) (v : PyValue) (rest : List (String × PyValue))
    (hf : stepFails v = true) (hne : v ≠ PyValue.exits) :
    runSteps results md ((n, v) :: rest) = (results ++ [⟨n, false⟩], md, false) := by
  have hso : stepOut v = none := by
    cases v with
    | buildResult s d => cases s <;> simp_all [stepFails, stepOut]
    | pyBool b => cases b <;> simp_all [stepFails, stepOut]
    | raises => rfl
    | exits => rfl
  rw [runSteps, run_step_eq results n v hne, hso, hf]
  rfl

lemma runSteps_cons_exit (results : List StepResult) (md : List (String × String))
    (n : String) (rest : List (String × PyValue)) :
    runSteps results md ((n, PyValue.exits) :: rest) = (results, md, false) := rfl

lemma runSteps_cons_succ (results : List StepResult) (md : List (String × String))
    (n : String) (v : PyValue) (rest : List (String × PyValue))
    (d : List (String × String))
    (hs : stepFails v = false) (hd : stepOut v = some d) :
    runSteps results md ((n, v) :: rest) =
      runSteps (results ++ [⟨n, true⟩]) (mdUp md n d) rest := by
  rw [runSteps, run_step_eq results n v (stepFails_ne_exits v hs), hd, hs]
  rfl

/-- C2 (code bug): `run_step`'s `except Exception` handler does not catch
`SystemExit`, and the shipped step "Update packages"
(`update_upgrade_chroot.main`) calls `sys.exit(1)` on any failure.  When that
step is the k-th step and fails, the `SystemExit` escapes `run_step` before
any `BUILD_RESULTS.append`: the recorded list has k-1 entries — here 1 where
the claim demands exactly 2 — with no entry at all for the attempted failing
step (the later steps are indeed never invoked).  This refutes the claim's
one-StepResult-per-attempted-step accounting on the shipped pipeline. -/
theorem systemexit_step_loses_entry :
    (customize_image
        [("Configure hostname/identity", PyValue.pyBool true),
         ("Update packages", PyValue.exits),
         ("Install Citrascope", PyValue.pyBool true)]).1 =
      [⟨"Configure hostname/identity", true⟩] ∧
    (customize_image
        [("Configure hostname/identity", PyValue.pyBool true),
         ("Update packages", PyValue.exits),
         ("Install Citrascope", PyValue.pyBool true)]).1.length = 1 ∧
    stepFails PyValue.exits = true ∧
    (customize_image
        [("Configure hostname/identity", PyValue.pyBool true),
         ("Update packages", PyValue.exits),
         ("Install Citrascope", PyValue.pyBool true)]).2.2 = false := by
  exact ⟨rfl, rfl, rfl, rfl⟩

lemma runSteps_ok_indep :
    ∀ (l : List (String × PyValue)) (r0 r1 : List StepResult)
      (m0 m1 : List (String × String)),
      (runSteps r0 m0 l).2.2 = (runSteps r1 m1 l).2.2 := by
  intro l
  induction l with
  | nil => intro r0 r1 m0 m1; rfl
  | cons p rest ih =>
      intro r0 r1 m0 m1
      obtain ⟨n, v⟩ := p
      by_cases hex : v = PyValue.exits
      · subst hex
        rw [runSteps_cons_exit r0 m0 n rest, runSteps_cons_exit r1 m1 n rest]
      · cases hf : stepFails v
        · obtain ⟨d, hd⟩ := stepFails_stepOut v hf
          rw [runSteps_cons_succ r0 m0 n v rest d hf hd,
            runSteps_cons_succ r1 m1 n v rest d hf hd]
          exact ih _ _ _ _
        · rw [runSteps_cons_fail r0 m0 n v rest hf hex,
            runSteps_cons_fail r1 m1 n v rest hf hex]

lemma runSteps_results_prepend :
    ∀ (l : List (String × PyValue)) (r0 : List StepResult)
      (md : List (String × String)),
      (runSteps r0 md l).1 = r0 ++ (runSteps [] md l).1 := by
  intro l
  induction l with
  | nil => intro r0 md; simp [runSteps]
  | cons p rest ih =>
      intro r0 md
      obtain ⟨n, v⟩ := p
      by_cases hex : v = PyValue.exits
      · subst hex
        rw [runSteps_cons_exit r0 md n rest, runSteps_cons_exit [] md n rest]
        simp
      · cases hf : stepFails v
        · obtain ⟨d, hd⟩ := stepFails_stepOut v hf
          rw [runSteps_cons_succ r0 md n v rest d hf hd,
            runSteps_cons_succ [] md n v rest d hf hd,
            ih (r0 ++ [(⟨n, true⟩ : StepResult)]) (mdUp md n d),
            ih ([] ++ [(⟨n, true⟩ : StepResult)]) (mdUp md n d)]
          simp
        · rw [runSteps_cons_fail r0 md n v rest hf hex,
            runSteps_cons_fail [] md n v rest hf hex]
          simp

/-- C8 counterexample: a failure of the image-expansion FILE GROWTH (the
`truncate` call, which sits before the `try/except`) aborts the whole build —
no step runs and the pipeline fails — even though every customization step
would succeed.  This refutes the claim that any expansion failure leaves
overall success determined solely by the customization steps. -/
theorem expand_truncate_fail_aborts :
    build_complete_image
        ⟨false, true, some ["loop0p1", "loop0p2"], true, true⟩
        [("Add user", PyValue.pyBool true)] = none ∧
    (∀ p ∈ [(("Add user" : String), PyValue.pyBool true)], stepFails p.2 = false) :=
  ⟨rfl, by decide⟩

/-- C8 amended (proved): once the file growth itself succeeds, a failure of
the partition-table resize, the loop-device attach or the filesystem-resize
invocation does not make the pipeline fail: the expansion phase is recorded as
an `Expand image` entry with its own success flag, the customization steps all
run, and overall success is determined solely by them (the expansion oracle
fields of `w` do not appear in the success component).  A failing `resize2fs`
world records a failed entry (last conjunct). -/
theorem expand_nonfatal (w : ExpandWorld) (steps : List (String × PyValue))
    (hT : w.truncateOk = true) :
    build_complete_image w steps =
      some (⟨"Expand image", expandImage w⟩ :: (customize_image steps).1,
            (customize_image steps).2.2) ∧
    expandImage ⟨true, true, some ["loop0p1", "loop0p2"], true, false⟩ = false := by
  refine ⟨?_, rfl⟩
  unfold build_complete_image
  rw [hT]
  dsimp only
  rw [runSteps_results_prepend steps [⟨"Expand image", expandImage w⟩] [],
    runSteps_ok_indep steps [⟨"Expand image", expandImage w⟩] [] [] []]
  rfl

/-- Witness for C8 amended, at a world whose `resize2fs` fails but whose file
growth succeeds: the build completes and its success flag is that of the
(successful) single customization step. -/
theorem expand_nonfatal_witness :
    (⟨true, true, some ["loop0p1", "loop0p2"], true, false⟩ : ExpandWorld).truncateOk
        = true ∧
    build_complete_image
        (⟨true, true, some ["loop0p1", "loop0p2"], true, false⟩ : ExpandWorld)
        [("Add user", PyValue.pyBool true)] =
      some (⟨"Expand image",
              expandImage ⟨true, true, some ["loop0p1", "loop0p2"], true, false⟩⟩ ::
            (customize_image [("Add user", PyValue.pyBool true)]).1,
            (customize_image [("Add user", PyValue.pyBool true)]).2.2) :=
  ⟨rfl,
   (expand_nonfatal (⟨true, true, some ["loop0p1", "loop0p2"], true, false⟩ : ExpandWorld)
      [("Add user", PyValue.pyBool true)] rfl).1⟩

end CitrascopePi
